import Mathlib

/-!
Verification development for `quantarhei/spectroscopy/twod2.py`:
the multi-resolution storage model of two-dimensional spectra
(`TwoDSpectrumBase` / `TwoDSpectrum`) and the mock lineshape calculator
(`MockTwoDSpectrumCalculator`).

The Python module is shallowly embedded: numpy complex arrays become
lists of lists of pairs of integers (only elementwise addition and
zero-initialisation are exercised by the storage layer), the Python
dictionaries (insertion ordered, unique keys) become association lists,
and every function that can raise returns an `Except` value or a pair
of the post-call state and an optional raised message.  Floating point
values that are only compared and selected (widths, dephasings) are
modelled by rationals; the Gaussian lineshape synthesis is modelled
over the reals.
-/

set_option autoImplicit false

namespace Twod2

/-- A complex number entry of a numpy array: (real part, imaginary part).
The storage layer only ever adds entries and creates zeros. -/
abbrev CNum := ℤ × ℤ

/-- A 2D numpy array of complex numbers, as a list of rows. -/
abbrev Mat := List (List CNum)

/-- `numpy.zeros((n, m), dtype=COMPLEX)`. -/
def zeros (n m : ℕ) : Mat :=
  List.replicate n (List.replicate m ((0 : ℤ), (0 : ℤ)))

/-- Elementwise addition (`data += other`).  This models the numpy
in-place addition of SAME-SHAPED operands only: numpy raises ValueError
for a non-broadcastable in-place addition, which `zipWith` cannot
express (it truncates).  Theorems that assert that a conversion
succeeds therefore carry a well-formedness hypothesis
(`storageShapesOk`, below) restricting to states in which every
addition the source performs is between same-shaped arrays. -/
def madd (A B : Mat) : Mat :=
  List.zipWith (fun r s => List.zipWith (fun a b => (a.1 + b.1, a.2 + b.2)) r s) A B

/-- Shape of an array, as (number of rows, number of columns). -/
def matShape (A : Mat) : ℕ × ℕ :=
  (A.length, (A.headD []).length)

/-- Association-list lookup: first entry with the given key
(Python dictionary subscript, `none` = KeyError). -/
def alookup {κ α : Type} [DecidableEq κ] (k : κ) : List (κ × α) → Option α
  | [] => none
  | (a, b) :: t => if a = k then some b else alookup k t

/-- Python dictionary assignment `d[k] = v`: replace in place if the key
exists (keeping its position), otherwise append at the end. -/
def dictSet {κ α : Type} [DecidableEq κ] : List (κ × α) → κ → α → List (κ × α)
  | [], k, v => [(k, v)]
  | (a, b) :: t, k, v => if a = k then (k, v) :: t else (a, b) :: dictSet t k v

/-!  ## The fixed lookup tables (twod2.py lines 51-70)  -/

/-- Pathway types (`_ptypes`). -/
def ptypes : List String :=
  ["R1g", "R2g", "R3g", "R4g", "R1fs", "R2fs", "R3fs", "R4fs"]

/-- Processes (`_processes`): GSB, SE, ESA and DC. -/
def processes : List (String × List String) :=
  [("GSB", ["R1g", "R2g"]), ("SE", ["R3g", "R4g"]),
   ("ESA", ["R1fs", "R2fs"]), ("DC", ["R3fs", "R4fs"])]

/-- Types of signals (`_signals`): REPH, NONR and DC. -/
def signalsTable : List (String × List String) :=
  [("REPH", ["R2g", "R3g", "R1fs"]), ("NONR", ["R1g", "R4g", "R2fs"]),
   ("DC", ["R3fs", "R4fs"])]

/-- Storage resolutions (`_resolutions`). -/
def resolutions : List String :=
  ["off", "signals", "processes", "types", "pathways"]

/-- The keys of the process table, in iteration order. -/
def procKeys : List String := processes.map (fun p => p.1)

/-- The keys of the signal table, in iteration order. -/
def sigKeys : List String := signalsTable.map (fun p => p.1)

/-- `_resolution2number` (twod2.py lines 73-110): converts a resolution
string to its index, raising on an unknown string. -/
def resolution2number (res : String) : Except String ℕ :=
  match resolutions.findIdx? (fun r => r = res) with
  | some n => Except.ok n
  | none => Except.error "Unknow resolution level in TwoDSpectrum"

/-!  ## The storage attribute `_d__data`

In Python the attribute `_d__data` either does not exist (it is never
created by `__init__`), or holds a dict of dicts of arrays (pathways
resolution), or holds a dict of arrays (all lower resolutions).  -/

/-- The inner dictionary of one pathway type: tag (Python allows `None`
as a key) to array. -/
abbrev TagDict := List (Option String × Mat)

instance instDecEqMat : DecidableEq Mat := inferInstance

instance instDecEqTagDict : DecidableEq TagDict := inferInstance

instance instDecEqStringTagDict : DecidableEq (String × TagDict) := inferInstance

instance instDecEqPwayDict : DecidableEq (List (String × TagDict)) := inferInstance

instance instDecEqFlatDict : DecidableEq (List (String × Mat)) := inferInstance

/-- The `_d__data` attribute of a `TwoDSpectrum`. -/
inductive Storage where
  /-- The attribute was never assigned (fresh object): any access raises
  AttributeError. -/
  | missing
  /-- Pathways-resolution storage: pathway type to tag to array. -/
  | pway (d : List (String × TagDict))
  /-- Flat storage used at types/processes/signals resolution:
  key to array. -/
  | flat (d : List (String × Mat))
deriving DecidableEq

/-- `true` iff the storage is the flat (lowered-resolution) dictionary. -/
def Storage.isFlat : Storage → Bool
  | .flat _ => true
  | _ => false

/-- `true` iff the storage is the pathways-resolution dictionary. -/
def Storage.isPway : Storage → Bool
  | .pway _ => true
  | _ => false

/-- Lookup of a key in flat storage.  `none` covers both a missing
attribute (AttributeError) and a missing key (KeyError); the callers in
the source treat the two alike.  The `.pway` case is unreachable at the
resolutions where flat lookups happen (the value would be a dict, and
the source would subsequently fail on it); it returns `none` as well. -/
def flatLookup (st : Storage) (k : String) : Option Mat :=
  match st with
  | .flat d => alookup k d
  | _ => none

/-- Lookup of the tag dictionary of one pathway type in pathways
storage.  `none` covers a missing attribute and a missing key; the
`.flat` case is unreachable when this is called (resolution is then
never "pathways"). -/
def pwayLookup (st : Storage) (k : String) : Option TagDict :=
  match st with
  | .pway d => alookup k d
  | _ => none

/-- The dictionary of pathways of a given type, with the bare
`try/except` of `_pathways_to_processes` and `_pathways_to_signals`
(twod2.py lines 152-155, 181-184): any failure yields the empty list. -/
def typeDictOrEmpty (st : Storage) (typ : String) : TagDict :=
  (pwayLookup st typ).getD []

/-!  ## The spectrum object state

The fields mirror the attributes set in `TwoDSpectrumBase.__init__` and
`TwoDSpectrum.__init__` (twod2.py lines 541-559, 946-950).  The two
axes are represented by their lengths, which is all the storage layer
reads (`self.xaxis.length`, `self.yaxis.length`); the axes are assumed
to have been set with `set_axis_1` / `set_axis_3`. -/
structure TwoDState where
  xlen : ℕ
  ylen : ℕ
  reph2D : Option Mat := none
  nonr2D : Option Mat := none
  data : Option Mat := none
  dtype : Option String := none
  storage_resolution : String := "pathways"
  storage_initialized : Bool := false
  current_dtype : Option String := none
  current_tag : Option String := none
  d__data : Storage := .missing
deriving DecidableEq

/-- A freshly constructed `TwoDSpectrum` whose axes have been set. -/
def mkTwoDSpectrum (xlen ylen : ℕ) : TwoDState :=
  { xlen := xlen, ylen := ylen }

/-- `set_data_flag(flag)` with a plain (non-list) flag
(twod2.py lines 662-680). -/
def set_data_flag_single (s : TwoDState) (flag : String) : TwoDState :=
  { s with current_dtype := some flag, current_tag := none }

/-- `set_data_flag([dtype, tag])` (twod2.py lines 662-680). -/
def set_data_flag_pair (s : TwoDState) (dtypeFlag tagFlag : String) : TwoDState :=
  { s with current_dtype := some dtypeFlag, current_tag := some tagFlag }

/-!  ## Aggregation functions (twod2.py lines 134-325)  -/

/-- Sum of all arrays of a tag dictionary onto an accumulator
(`for tag in pways: data += pways[tag]`). -/
def sumTags (acc : Mat) (pways : TagDict) : Mat :=
  pways.foldl (fun d kv => madd d kv.2) acc

/-- `_pathways_to_processes(obj, process)` (twod2.py lines 134-160).
When the storage is not initialized the function returns a 1x1 zero
array immediately, before the process name is validated. -/
def pathways_to_processes (s : TwoDState) (process : String) : Except String Mat :=
  if s.storage_initialized = false then Except.ok (zeros 1 1)
  else
    match alookup process processes with
    | none => Except.error ("Unknown process: " ++ process)
    | some types =>
        Except.ok (types.foldl (fun data typ => sumTags data (typeDictOrEmpty s.d__data typ))
          (zeros s.xlen s.ylen))

/-- `_pathways_to_signals(obj, signal)` (twod2.py lines 163-189).
Unlike `_pathways_to_processes` there is no early return: an
uninitialized store starts from a 1x1 zero accumulator but the signal
name is still validated. -/
def pathways_to_signals (s : TwoDState) (signal : String) : Except String Mat :=
  let init := if s.storage_initialized then zeros s.xlen s.ylen else zeros 1 1
  match alookup signal signalsTable with
  | none => Except.error ("Unknown signal: " ++ signal)
  | some types =>
      Except.ok (types.foldl (fun data typ => sumTags data (typeDictOrEmpty s.d__data typ)) init)

/-- Monadic accumulation used for loops of the form
`for k in keys: data += f(k)` where `f` may raise: the first raised
exception aborts the loop. -/
def exceptSumOver (f : String → Except String Mat) : List String → Mat → Except String Mat
  | [], acc => Except.ok acc
  | k :: ks, acc =>
      match f k with
      | Except.error e => Except.error e
      | Except.ok m => exceptSumOver f ks (madd acc m)

/-- `_pathways_to_total(obj)` (twod2.py lines 192-205): sums
`_pathways_to_signals` over the three signal keys. -/
def pathways_to_total (s : TwoDState) : Except String Mat :=
  let init := if s.storage_initialized then zeros s.xlen s.ylen else zeros 1 1
  exceptSumOver (fun sig => pathways_to_signals s sig) sigKeys init

/-- The common accumulation loop of `_types_to_processes` and
`_types_to_signals`: a missing key or missing attribute makes `ddata`
`None`, which is skipped. -/
def typesAccum (s : TwoDState) (types : List String) : Mat :=
  types.foldl (fun data dtype =>
      match flatLookup s.d__data dtype with
      | none => data
      | some ddata => madd data ddata)
    (if s.storage_initialized then zeros s.xlen s.ylen else zeros 1 1)

/-- `_types_to_processes(obj, process)` (twod2.py lines 208-235).
`_processes[process]` raises KeyError for an unknown process. -/
def types_to_processes (s : TwoDState) (process : String) : Except String Mat :=
  match alookup process processes with
  | none => Except.error ("KeyError: " ++ process)
  | some types => Except.ok (typesAccum s types)

/-- `_types_to_signals(obj, signal)` (twod2.py lines 238-265). -/
def types_to_signals (s : TwoDState) (signal : String) : Except String Mat :=
  match alookup signal signalsTable with
  | none => Except.error ("KeyError: " ++ signal)
  | some types => Except.ok (typesAccum s types)

/-- Fetch one flat-storage entry, raising KeyError (or AttributeError
for a missing attribute) when absent, as in
`data += obj._d__data[signal]`. -/
def flatFetch (st : Storage) (k : String) : Except String Mat :=
  match flatLookup st k with
  | some m => Except.ok m
  | none => Except.error ("KeyError: " ++ k)

/-- `_signals_to_total(obj)` (twod2.py lines 268-284): when initialized,
sums the three signal entries of flat storage; a missing entry raises. -/
def signals_to_total (s : TwoDState) : Except String Mat :=
  if s.storage_initialized then
    exceptSumOver (fun k => flatFetch s.d__data k) sigKeys (zeros s.xlen s.ylen)
  else Except.ok (zeros 1 1)

/-- `_processes_to_total(obj)` (twod2.py lines 287-304). -/
def processes_to_total (s : TwoDState) : Except String Mat :=
  if s.storage_initialized then
    exceptSumOver (fun k => flatFetch s.d__data k) procKeys (zeros s.xlen s.ylen)
  else Except.ok (zeros 1 1)

/-- `_types_to_total(obj)` (twod2.py lines 307-325).  In the initialized
branch the source executes `data += _types_to_processes(process)`,
calling the two-argument function `_types_to_processes(obj, process)`
with a single argument: Python raises TypeError on the first loop
iteration, before anything is summed.  Only the uninitialized branch
returns normally. -/
def types_to_total (s : TwoDState) : Except String Mat :=
  if s.storage_initialized then
    Except.error "TypeError: types_to_processes missing positional argument"
  else Except.ok (zeros 1 1)

/-!  ## The storage property (twod2.py lines 328-507)  -/

/-- The getter of the `d__data` property produced by
`twodspectrum_dictionary` (twod2.py lines 336-461).  `Except.ok none`
models the implicit `return None` when no branch matches;
`Except.error` models a raised exception.  The very first statement,
`storage = getattr(self, storage_name)`, raises AttributeError whenever
the attribute was never assigned. -/
def d__data_get (s : TwoDState) : Except String (Option Mat) :=
  match s.d__data with
  | .missing => Except.error "AttributeError: _d__data"
  | _ =>
    if s.storage_resolution = "pathways" then
      match s.current_dtype with
      | none => Except.ok none
      | some dt =>
        if dt ∈ ptypes then
          if s.storage_initialized then
            match pwayLookup s.d__data dt with
            | none => Except.ok (some (zeros s.xlen s.ylen))
            | some piece =>
              match s.current_tag with
              | some tag =>
                  -- return as pathway: piece[self.current_tag]
                  match alookup (some tag) piece with
                  | some m => Except.ok (some m)
                  | none => Except.error ("KeyError: " ++ tag)
              | none =>
                  -- return as type: sum all pathways of the type; with an
                  -- empty dict the loop variable `data` stays unbound
                  match piece with
                  | [] => Except.error "UnboundLocalError: data"
                  | kv :: rest => Except.ok (some (sumTags kv.2 rest))
          else Except.ok (some (zeros 1 1))
        else if (alookup dt processes).isSome then
          (pathways_to_processes s dt).map some
        else if (alookup dt signalsTable).isSome then
          (pathways_to_signals s dt).map some
        else if dt = "total" then
          (pathways_to_total s).map some
        else Except.ok none
    else if s.storage_resolution = "types" then
      match s.current_dtype with
      | none => Except.ok none
      | some dt =>
        if dt ∈ ptypes then
          match flatLookup s.d__data dt with
          | some m => Except.ok (some m)
          | none => Except.error ("KeyError: " ++ dt)
        else if (alookup dt processes).isSome then
          (types_to_processes s dt).map some
        else if (alookup dt signalsTable).isSome then
          (types_to_signals s dt).map some
        else if dt = "total" then
          (types_to_total s).map some
        else Except.ok none
    else if s.storage_resolution = "processes" then
      match s.current_dtype with
      | none => Except.ok none
      | some dt =>
        if (alookup dt processes).isSome then
          match flatLookup s.d__data dt with
          | some m => Except.ok (some m)
          | none => Except.error ("KeyError: " ++ dt)
        else if dt = "total" then
          (processes_to_total s).map some
        else Except.ok none
    else if s.storage_resolution = "signals" then
      match s.current_dtype with
      | none => Except.ok none
      | some dt =>
        if (alookup dt signalsTable).isSome then
          match flatLookup s.d__data dt with
          | some m => Except.ok (some m)
          | none => Except.error ("KeyError: " ++ dt)
        else if dt = "total" then
          (signals_to_total s).map some
        else Except.ok none
    else Except.error "not implemented"

/-- The setter of the `d__data` property (twod2.py lines 464-507).
Returns the post-call state together with the raised message, if any;
partial mutations performed before a raise are kept, exactly as on the
Python object.  Storage is created and `storage_initialized` flipped
before any validation.  The shape check of the source (lines 497-499)
is nested below the `raise Exception("Tag already exists")` statement
and is therefore unreachable: no shape validation ever happens here.
The argument is always an array, so the `isinstance` failure branch is
not represented. -/
def d__data_set (s : TwoDState) (value : Mat) : TwoDState × Option String :=
  let s1 := if s.storage_initialized then s
            else { s with d__data := .pway [], storage_initialized := true }
  if s1.storage_resolution = "pathways" then
    match s1.current_dtype with
    | none => (s1, some "Wrong pathways type")
    | some dt =>
      if dt ∈ ptypes then
        match s1.d__data with
        | .missing => (s1, some "AttributeError: _d__data")
        | .flat _ => (s1, some "TypeError: not a dict of dicts")
        | .pway d =>
          let dd := match alookup dt d with
                    | some piece => (d, piece)
                    | none => (dictSet d dt [], [])
          if (alookup s1.current_tag dd.2).isSome then
            ({ s1 with d__data := .pway dd.1 }, some "Tag already exists")
          else
            ({ s1 with d__data := .pway (dictSet dd.1 dt (dictSet dd.2 s1.current_tag value)) },
             none)
      else (s1, some "Wrong pathways type")
  else (s1, none)

/-- The array stored under a concrete (type, tag) address, if any. -/
def storedTag (s : TwoDState) (dt tg : String) : Option Mat :=
  match s.d__data with
  | .pway d =>
      match alookup dt d with
      | some piece => alookup (some tg) piece
      | none => none
  | _ => none

/-!  ## Resolution conversion (twod2.py lines 703-867)  -/

/-- The "pathways" to "types" summation of `_convert_resolution`
(twod2.py lines 795-825): one entry per pathway type, each the sum of
that type's pathways over a zero accumulator.  The `data_present` flag
of the source is set to `False` by the AttributeError handler, i.e.
exactly when the `_d__data` attribute is missing — in which case it is
missing for every type, so all accumulators are 1x1. -/
def pathwaysToTypesStorage (s : TwoDState) : List (String × Mat) :=
  match s.d__data with
  | .pway d =>
      ptypes.map (fun dtype =>
        (dtype, sumTags (zeros s.xlen s.ylen) ((alookup dtype d).getD [])))
  | _ =>
      ptypes.map (fun dtype => (dtype, zeros 1 1))

/-- Build a flat storage dictionary by evaluating `f` on each key in
order, aborting at the first raised exception
(`for k in keys: storage[k] = f(k)`). -/
def exceptPairs (f : String → Except String Mat) : List String → Except String (List (String × Mat))
  | [] => Except.ok []
  | k :: ks =>
      match f k with
      | Except.error e => Except.error e
      | Except.ok m =>
          match exceptPairs f ks with
          | Except.error e => Except.error e
          | Except.ok rest => Except.ok ((k, m) :: rest)

/-- `_convert_resolution(self, old, new)` (twod2.py lines 789-867).
Returns the post-call state and the raised message, if any.  Note that
the "signals" to "off" and "processes" to "off" branches (lines
851-863) build a local dictionary `storage` holding the summed total
under the key "off" but never assign it to `self._d__data`: the
computed total is discarded and the storage attribute is untouched.
In the "pathways" to "types" branch, flat storage would make the
un-guarded `pdict.keys()` call fail; that state never occurs because
flat storage only exists below pathways resolution. -/
def convert_resolution (s : TwoDState) (old new : ℕ) : TwoDState × Option String :=
  if old = 4 ∧ new = 3 then
    match s.d__data with
    | .flat _ => (s, some "AttributeError: keys")
    | _ => ({ s with d__data := .flat (pathwaysToTypesStorage s) }, none)
  else if old = 3 ∧ new = 2 then
    match exceptPairs (fun k => types_to_processes s k) procKeys with
    | Except.error e => (s, some e)
    | Except.ok st => ({ s with d__data := .flat st }, none)
  else if old = 3 ∧ new = 1 then
    match exceptPairs (fun k => types_to_signals s k) sigKeys with
    | Except.error e => (s, some e)
    | Except.ok st => ({ s with d__data := .flat st }, none)
  else if old = 1 ∧ new = 0 then
    match signals_to_total s with
    | Except.error e => (s, some e)
    | Except.ok _ => (s, none)
  else if old = 2 ∧ new = 0 then
    match processes_to_total s with
    | Except.error e => (s, some e)
    | Except.ok _ => (s, none)
  else
    (s, some ("Cannot convert resolution for level " ++ toString old
              ++ " to level " ++ toString new))

/-- `set_resolution(self, resolution)` (twod2.py lines 703-786).
Returns the post-call state and the raised message, if any. -/
def set_resolution (s : TwoDState) (resolution : String) : TwoDState × Option String :=
  if resolution ∈ resolutions then
    match resolution2number s.storage_resolution with
    | Except.error e => (s, some e)
    | Except.ok res_old =>
      match resolution2number resolution with
      | Except.error e => (s, some e)
      | Except.ok res_new =>
        if res_old < res_new then
          (s, some "Cannot convert from lower to higher resolution")
        else if res_new < res_old then
          match convert_resolution s res_old res_new with
          | (s1, some e) => (s1, some e)
          | (s1, none) => ({ s1 with storage_resolution := resolution }, none)
        else ({ s with storage_resolution := resolution }, none)
  else (s, some ("Unknown resolution: " ++ resolution))

/-!  ## add_data (twod2.py lines 632-659)  -/

/-- A zero array of the same shape as `A`
(`numpy.zeros(data.shape, dtype=data.dtype)`). -/
def zerosLike (A : Mat) : Mat :=
  A.map (fun row => row.map (fun _ => ((0 : ℤ), (0 : ℤ))))

/-- `add_data(self, data, dtype)` (twod2.py lines 632-659).  The guard
at the top reads `if dtype is None:` — not `if self.dtype is None:` —
so for a string argument the `else` branch always compares the argument
against the `dtype` attribute and raises unless they already agree; the
attribute is never set here.  For `dtype=None` the inner
`dtype in self.dtypes` test is always false and the trailing dispatch
raises while concatenating `None` to a string. -/
def add_data (s : TwoDState) (dat : Mat) (dtype : Option String) : TwoDState × Option String :=
  match dtype with
  | none => (s, some "TypeError: can only concatenate str")
  | some dt =>
      if s.dtype ≠ some dt then (s, some "Incorrect data type in TwoDSpectrum")
      else if dt = "Tot" then
        ({ s with data := some (madd (s.data.getD (zerosLike dat)) dat) }, none)
      else if dt = "Reph" then
        ({ s with reph2D := some (madd (s.reph2D.getD (zerosLike dat)) dat) }, none)
      else if dt = "Nonr" then
        ({ s with nonr2D := some (madd (s.nonr2D.getD (zerosLike dat)) dat) }, none)
      else (s, some ("Unknow type of data: " ++ dt))

/-!  ## MockTwoDSpectrumCalculator (twod2.py lines 1686-1894)

Width and dephasing values are floats that are only compared against
zero and selected; they are modelled by rationals.  The frequency axes
produced by `bootstrap` are arithmetic grids `start + i * step`
(quantarhei `FrequencyAxis.data`), with the rwa offset already added.
The synthesized spectra are real multiples of products of Gaussian or
Lorentzian factors; the prefactor is modelled by its real value. -/

/-- A frequency axis: `data[i] = start + i * step`. -/
structure FreqAxis where
  start : ℚ
  step : ℚ
  length : ℕ

/-- `axis.data[i]`. -/
def FreqAxis.dataAt (a : FreqAxis) (i : ℕ) : ℚ :=
  a.start + (i : ℚ) * a.step

/-- The per-instance defaults set in
`MockTwoDSpectrumCalculator.__init__` (twod2.py lines 1695-1701):
`widthx`, `widthy`, `dephx`, `dephy`, each `convert(300, "1/cm", "int")`
(a fixed positive constant, kept abstract here). -/
structure MockDefaults where
  widthx : ℚ
  widthy : ℚ
  dephx : ℚ
  dephy : ℚ

/-- A Liouville pathway descriptor, as consumed by
`calculate_pathway` (twod2.py lines 1803-1894). -/
structure PathwayDesc where
  pathway_type : String
  order : ℕ
  relax_order : ℕ
  frequency : ℕ → ℚ
  pref : ℚ
  widths : ℕ → ℚ
  dephs : ℕ → ℚ

/-- The x width used by `calculate_pathway`
(twod2.py lines 1820-1823). -/
def resolve_widthx (c : MockDefaults) (p : PathwayDesc) : ℚ :=
  if p.widths 1 < 0 then c.widthx else p.widths 1

/-- The y width used by `calculate_pathway`
(twod2.py lines 1825-1828). -/
def resolve_widthy (c : MockDefaults) (p : PathwayDesc) : ℚ :=
  if p.widths 3 < 0 then c.widthy else p.widths 3

/-- The x dephasing used by `calculate_pathway`
(twod2.py lines 1830-1833). -/
def resolve_dephx (c : MockDefaults) (p : PathwayDesc) : ℚ :=
  if p.dephs 1 < 0 then c.dephx else p.dephs 1

/-- The y dephasing used by `calculate_pathway`
(twod2.py lines 1835-1838).  The source tests `pathway.widths[3]`
here — not `pathway.dephs[3]` — before falling back to the default. -/
def resolve_dephy (c : MockDefaults) (p : PathwayDesc) : ℚ :=
  if p.widths 3 < 0 then c.dephy else p.dephs 3

/-- One Gaussian factor `exp(-((o - cen)/width)**2)`, with the argument
computed over the rationals and evaluated in the reals. -/
noncomputable def gaussFactor (o cen width : ℚ) : ℝ :=
  Real.exp (-((((o - cen) / width : ℚ) : ℝ)) ^ 2)

/-- One Lorentzian factor `deph/((o - cen)**2 + deph**2)`. -/
def lorentzFactor (o cen deph : ℚ) : ℚ :=
  deph / ((o - cen) ^ 2 + deph ^ 2)

/-- `calculate_pathway(self, pathway, shape)`
(twod2.py lines 1803-1894), for a calculator bootstrapped with output
axes `oa1`, `oa3`.  The result entry at row `i3`, column `i1` of the
returned array is given as a function of the two indices
(`reph2D[:, i1]` assigns column `i1`, one row per `oa3` sample).
Rephasing pathways use `o1 = -oa1.data[i1]`; non-rephasing pathways use
`o1 = oa1.data[i1]`.  An unknown shape raises; an unknown pathway type
falls off the end of the function and returns `None`. -/
noncomputable def calculate_pathway (c : MockDefaults) (oa1 oa3 : FreqAxis)
    (p : PathwayDesc) (shape : String) (all_positive : Bool) :
    Except String (Option (ℕ → ℕ → ℝ)) :=
  let noe := 1 + p.order + p.relax_order
  let cen1 := p.frequency 0
  let cen3 := p.frequency (noe - 2)
  let pref : ℚ := if all_positive then |p.pref| else p.pref
  let widthx := resolve_widthx c p
  let widthy := resolve_widthy c p
  let dephx := resolve_dephx c p
  let dephy := resolve_dephy c p
  if p.pathway_type = "R" then
    if shape = "Gaussian" then
      Except.ok (some (fun i3 i1 =>
        (pref : ℝ) * gaussFactor (-(oa1.dataAt i1)) cen1 widthx
                   * gaussFactor (oa3.dataAt i3) cen3 widthy))
    else if shape = "Lorentzian" then
      Except.ok (some (fun i3 i1 =>
        (pref : ℝ) * ((lorentzFactor (-(oa1.dataAt i1)) cen1 dephx : ℚ) : ℝ)
                   * ((lorentzFactor (oa3.dataAt i3) cen3 dephy : ℚ) : ℝ)))
    else Except.error ("Unknown line shape: " ++ shape)
  else if p.pathway_type = "NR" then
    if shape = "Gaussian" then
      Except.ok (some (fun i3 i1 =>
        (pref : ℝ) * gaussFactor (oa1.dataAt i1) cen1 widthx
                   * gaussFactor (oa3.dataAt i3) cen3 widthy))
    else if shape = "Lorentzian" then
      Except.ok (some (fun i3 i1 =>
        (pref : ℝ) * ((lorentzFactor (oa1.dataAt i1) cen1 dephx : ℚ) : ℝ)
                   * ((lorentzFactor (oa3.dataAt i3) cen3 dephy : ℚ) : ℝ)))
    else Except.error ("Unknown line shape: " ++ shape)
  else Except.ok none

/-!  ## Specification-side notions used to state the claims  -/

/-- The numeric level of a resolution string (pathways = 4 … off = 0);
unknown strings are mapped to 5, one past the highest level. -/
def levelOf (r : String) : ℕ :=
  (resolutions.findIdx? (fun x => x = r)).getD resolutions.length

/-- The transitions along which `set_resolution` is claimed to succeed:
pathways(4)→types(3), types(3)→processes(2), types(3)→signals(1),
signals(1)→off(0), processes(2)→off(0), and staying at the same
level. -/
def allowedStep (o n : ℕ) : Prop :=
  (o = 4 ∧ n = 3) ∨ (o = 3 ∧ n = 2) ∨ (o = 3 ∧ n = 1)
    ∨ (o = 1 ∧ n = 0) ∨ (o = 2 ∧ n = 0) ∨ o = n

/-- All keys of `ks` are present in the flat storage. -/
def flatHasKeys (st : Storage) (ks : List String) : Prop :=
  ∀ k ∈ ks, (flatLookup st k).isSome = true

/-- Every array stored in the dictionary has the shape the conversion
code assumes: pathway arrays match the declared axis lengths, and flat
arrays match them when the store is initialized (they are the 1x1
placeholder otherwise).  On such states every in-place addition
performed by `_convert_resolution` and the totals is between
same-shaped arrays, so the exact elementwise model is faithful: numpy
cannot raise a broadcast ValueError there.  States violating this are
reachable only through the dead shape check of the write path
(twod2.py lines 497-499) or by trimming the axes afterwards. -/
def storageShapesOk (s : TwoDState) : Bool :=
  match s.d__data with
  | .missing => true
  | .pway d =>
      d.all (fun p => p.2.all (fun q => matShape q.2 = (s.xlen, s.ylen)))
  | .flat d =>
      d.all (fun p =>
        matShape p.2 = if s.storage_initialized then (s.xlen, s.ylen) else (1, 1))

/-- Well-formedness of a spectrum state, the hypothesis of the amended
resolution-transition claim.  The resolution string is legal; the shape
of the storage dictionary matches the resolution (nested dictionaries
exactly at pathways resolution); every stored array has the expected
shape (`storageShapesOk`, which makes the elementwise model faithful to
numpy); and at signals/processes resolution with initialized storage
the flat dictionary holds one entry per signal/process key, as
`_convert_resolution` writes when it produces those resolutions.
States outside `wf` are reachable — the property C2 claims of them is
refuted by the C2 counterexample below. -/
def wf (s : TwoDState) : Prop :=
  s.storage_resolution ∈ resolutions
  ∧ (s.d__data.isPway = true → s.storage_resolution = "pathways")
  ∧ (s.d__data.isFlat = true → s.storage_resolution ≠ "pathways")
  ∧ storageShapesOk s = true
  ∧ (s.storage_resolution = "signals" → s.storage_initialized = true →
      flatHasKeys s.d__data sigKeys)
  ∧ (s.storage_resolution = "processes" → s.storage_initialized = true →
      flatHasKeys s.d__data procKeys)

instance instDecFlatHasKeys (st : Storage) (ks : List String) :
    Decidable (flatHasKeys st ks) := by
  unfold flatHasKeys; infer_instance

instance instDecWf (s : TwoDState) : Decidable (wf s) := by
  unfold wf; infer_instance

/-!  ## Concrete states used by the counterexample evaluations  -/

/-- A populated pathways-resolution spectrum over a 1x1 grid: one R2g
pathway with value 2 and one R1g pathway with value 1, the data flag
set to read "total". -/
def exPathState : TwoDState :=
  { xlen := 1, ylen := 1, storage_resolution := "pathways",
    storage_initialized := true,
    current_dtype := some "total", current_tag := none,
    d__data := .pway
      [("R1g", [(some "a", [[((1 : ℤ), (0 : ℤ))]])]),
       ("R2g", [(some "b", [[((2 : ℤ), (0 : ℤ))]])])] }

/-- `exPathState` after `set_resolution("types")`. -/
def exTypesState : TwoDState := (set_resolution exPathState "types").1

/-- `exTypesState` after `set_resolution("processes")`. -/
def exProcState : TwoDState := (set_resolution exTypesState "processes").1

/-- `exTypesState` after `set_resolution("signals")`. -/
def exSigState : TwoDState := (set_resolution exTypesState "signals").1

/-- A pathways-resolution spectrum over a 2x2 grid holding one R1g
pathway, with the write address set to the fresh tag "t2". -/
def exShapeState : TwoDState :=
  { xlen := 2, ylen := 2, storage_resolution := "pathways",
    storage_initialized := true,
    current_dtype := some "R1g", current_tag := some "t2",
    d__data := .pway
      [("R1g", [(some "t1",
        [[((1 : ℤ), (0 : ℤ)), ((0 : ℤ), (0 : ℤ))],
         [((0 : ℤ), (0 : ℤ)), ((0 : ℤ), (0 : ℤ))]])])] }

/-- A 1x1 array, inconsistent with the 2x2 axes of `exShapeState`. -/
def badShaped : Mat := [[((7 : ℤ), (0 : ℤ))]]

/-- A fresh spectrum lowered pathways→types→signals without ever
holding data: the conversions leave `storage_initialized` False and the
flat dictionary holds 1x1 placeholders. -/
def exFreshSignals : TwoDState :=
  (set_resolution (set_resolution (mkTwoDSpectrum 1 1) "types").1 "signals").1

/-- `exFreshSignals` after a write.  The setter (twod2.py lines
467-470) sees `storage_initialized == False`, resets `_d__data` to the
empty dict and flips the flag before any validation; the body then
stores nothing because the resolution is not "pathways", and no
exception is raised.  The resulting state sits at "signals" resolution,
initialized, with an empty storage dictionary. -/
def exWrittenAfterLowering : TwoDState :=
  (d__data_set exFreshSignals [[((1 : ℤ), (0 : ℤ))]]).1

/-- The mock calculator defaults: all four parameters set to the
positive constant the source assigns (300 converted to internal units;
the exact value is irrelevant, only its sign is used). -/
def mockDefaults : MockDefaults :=
  { widthx := 300, widthy := 300, dephx := 300, dephy := 300 }

/-- A Lorentzian pathway whose y dephasing is explicitly given
(`dephs[3] = 5 >= 0`) while its widths are all left at the sentinel
-1. -/
def lorentzPathwayA : PathwayDesc :=
  { pathway_type := "R", order := 3, relax_order := 0,
    frequency := fun _ => 100, pref := 1,
    widths := fun _ => -1,
    dephs := fun i => if i = 3 then 5 else -1 }

/-- A Lorentzian pathway whose y width is explicitly given
(`widths[3] = 2 >= 0`) while its dephasings are all the sentinel -7 (so
`dephs[3] < 0` should select the default). -/
def lorentzPathwayB : PathwayDesc :=
  { pathway_type := "R", order := 3, relax_order := 0,
    frequency := fun _ => 100, pref := 1,
    widths := fun i => if i = 3 then 2 else -1,
    dephs := fun _ => -7 }

/-- The symmetric five-point frequency axis -200, -100, 0, 100, 200
(centered at 0, rwa = 0). -/
def symAxis : FreqAxis := { start := -200, step := 100, length := 5 }

/-- A rephasing pathway descriptor with center frequencies (100, 100),
prefactor 1 and default widths. -/
def pathR : PathwayDesc :=
  { pathway_type := "R", order := 3, relax_order := 0,
    frequency := fun _ => 100, pref := 1,
    widths := fun _ => -1, dephs := fun _ => -1 }

/-- A non-rephasing pathway descriptor with center frequencies
(100, 100), prefactor 1 and default widths. -/
def pathNR : PathwayDesc :=
  { pathway_type := "NR", order := 3, relax_order := 0,
    frequency := fun _ => 100, pref := 1,
    widths := fun _ => -1, dephs := fun _ => -1 }

/-- The Gaussian rephasing array produced by `calculate_pathway` for
`pathR` over `symAxis`: explicit form of the synthesized entries. -/
noncomputable def gaussArrR (c : MockDefaults) : ℕ → ℕ → ℝ := fun i3 i1 =>
  ((1 : ℚ) : ℝ) * gaussFactor (-(symAxis.dataAt i1)) 100 c.widthx
                * gaussFactor (symAxis.dataAt i3) 100 c.widthy

/-- The Gaussian non-rephasing array produced by `calculate_pathway`
for `pathNR` over `symAxis`. -/
noncomputable def gaussArrNR (c : MockDefaults) : ℕ → ℕ → ℝ := fun i3 i1 =>
  ((1 : ℚ) : ℝ) * gaussFactor (symAxis.dataAt i1) 100 c.widthx
                * gaussFactor (symAxis.dataAt i3) 100 c.widthy

/-!  ## Helper lemmas  -/

theorem alookup_dictSet_self {κ α : Type} [DecidableEq κ]
    (d : List (κ × α)) (k : κ) (v : α) :
    alookup k (dictSet d k v) = some v := by
  induction d with
  | nil => simp [dictSet, alookup]
  | cons p t ih =>
      rcases p with ⟨a, b⟩
      by_cases h : a = k
      · simp [dictSet, h, alookup]
      · simp [dictSet, h, alookup, ih]

theorem r2n_off : resolution2number "off" = Except.ok 0 := rfl

theorem r2n_signals : resolution2number "signals" = Except.ok 1 := rfl

theorem r2n_processes : resolution2number "processes" = Except.ok 2 := rfl

theorem r2n_types : resolution2number "types" = Except.ok 3 := rfl

theorem r2n_pathways : resolution2number "pathways" = Except.ok 4 := rfl

theorem levelOf_off : levelOf "off" = 0 := rfl

theorem levelOf_signals : levelOf "signals" = 1 := rfl

theorem levelOf_processes : levelOf "processes" = 2 := rfl

theorem levelOf_types : levelOf "types" = 3 := rfl

theorem levelOf_pathways : levelOf "pathways" = 4 := rfl

/-- When every key of `ks` is present in the flat storage, the
summation loop raises nothing. -/
theorem exceptSumOver_flatFetch_ok (st : Storage) (ks : List String)
    (h : ∀ k ∈ ks, (flatLookup st k).isSome = true) (acc : Mat) :
    ∃ m, exceptSumOver (fun k => flatFetch st k) ks acc = Except.ok m := by
  induction ks generalizing acc with
  | nil => exact ⟨acc, rfl⟩
  | cons k ks ih =>
      obtain ⟨m, hm⟩ := Option.isSome_iff_exists.mp (h k (by simp))
      have hf : flatFetch st k = Except.ok m := by simp [flatFetch, hm]
      simpa [exceptSumOver, hf] using
        ih (fun x hx => h x (List.mem_cons_of_mem _ hx)) (madd acc m)

/-- `signals_to_total` returns normally when the store is uninitialized
or all three signal keys are present. -/
theorem signals_to_total_ok (s : TwoDState)
    (h : s.storage_initialized = true → flatHasKeys s.d__data sigKeys) :
    ∃ m, signals_to_total s = Except.ok m := by
  by_cases hini : s.storage_initialized = true
  · obtain ⟨m, hm⟩ :=
      exceptSumOver_flatFetch_ok s.d__data sigKeys (h hini) (zeros s.xlen s.ylen)
    exact ⟨m, by simp [signals_to_total, hini, hm]⟩
  · exact ⟨zeros 1 1, by simp [signals_to_total, hini]⟩

/-- `processes_to_total` returns normally when the store is
uninitialized or all four process keys are present. -/
theorem processes_to_total_ok (s : TwoDState)
    (h : s.storage_initialized = true → flatHasKeys s.d__data procKeys) :
    ∃ m, processes_to_total s = Except.ok m := by
  by_cases hini : s.storage_initialized = true
  · obtain ⟨m, hm⟩ :=
      exceptSumOver_flatFetch_ok s.d__data procKeys (h hini) (zeros s.xlen s.ylen)
    exact ⟨m, by simp [processes_to_total, hini, hm]⟩
  · exact ⟨zeros 1 1, by simp [processes_to_total, hini]⟩

/-- The types-to-processes conversion loop never raises: its four keys
are all in the process table. -/
theorem exceptPairs_t2p (s : TwoDState) :
    exceptPairs (fun k => types_to_processes s k) procKeys =
      Except.ok
        [("GSB", typesAccum s ["R1g", "R2g"]), ("SE", typesAccum s ["R3g", "R4g"]),
         ("ESA", typesAccum s ["R1fs", "R2fs"]), ("DC", typesAccum s ["R3fs", "R4fs"])] := rfl

/-- The types-to-signals conversion loop never raises. -/
theorem exceptPairs_t2s (s : TwoDState) :
    exceptPairs (fun k => types_to_signals s k) sigKeys =
      Except.ok
        [("REPH", typesAccum s ["R2g", "R3g", "R1fs"]),
         ("NONR", typesAccum s ["R1g", "R4g", "R2fs"]),
         ("DC", typesAccum s ["R3fs", "R4fs"])] := rfl

/-- `_convert_resolution` from pathways to types succeeds whenever the
storage dictionary is not flat. -/
theorem convert_43 (s : TwoDState) (h : s.d__data.isFlat = false) :
    convert_resolution s 4 3 =
      ({ s with d__data := .flat (pathwaysToTypesStorage s) }, none) := by
  unfold convert_resolution
  cases hd : s.d__data with
  | flat d => rw [hd] at h; simp [Storage.isFlat] at h
  | missing => simp [hd]
  | pway d => simp [hd]

/-- `_convert_resolution` from types to processes always succeeds. -/
theorem convert_32 (s : TwoDState) :
    convert_resolution s 3 2 =
      ({ s with d__data := Storage.flat
                  [("GSB", typesAccum s ["R1g", "R2g"]),
                   ("SE", typesAccum s ["R3g", "R4g"]),
                   ("ESA", typesAccum s ["R1fs", "R2fs"]),
                   ("DC", typesAccum s ["R3fs", "R4fs"])] },
       none) := rfl

/-- `_convert_resolution` from types to signals always succeeds. -/
theorem convert_31 (s : TwoDState) :
    convert_resolution s 3 1 =
      ({ s with d__data := Storage.flat
                  [("REPH", typesAccum s ["R2g", "R3g", "R1fs"]),
                   ("NONR", typesAccum s ["R1g", "R4g", "R2fs"]),
                   ("DC", typesAccum s ["R3fs", "R4fs"])] },
       none) := rfl

/-- `_convert_resolution` from signals to off: succeeds and leaves the
state untouched (the computed total is discarded). -/
theorem convert_10 (s : TwoDState)
    (h : s.storage_initialized = true → flatHasKeys s.d__data sigKeys) :
    convert_resolution s 1 0 = (s, none) := by
  obtain ⟨m, hm⟩ := signals_to_total_ok s h
  unfold convert_resolution
  simp [hm]

/-- `_convert_resolution` from processes to off: succeeds and leaves
the state untouched (the computed total is discarded). -/
theorem convert_20 (s : TwoDState)
    (h : s.storage_initialized = true → flatHasKeys s.d__data procKeys) :
    convert_resolution s 2 0 = (s, none) := by
  obtain ⟨m, hm⟩ := processes_to_total_ok s h
  unfold convert_resolution
  simp [hm]

/-- Unsupported conversion pairs raise and change nothing. -/
theorem convert_21 (s : TwoDState) :
    convert_resolution s 2 1
      = (s, some "Cannot convert resolution for level 2 to level 1") := rfl

theorem convert_30 (s : TwoDState) :
    convert_resolution s 3 0
      = (s, some "Cannot convert resolution for level 3 to level 0") := rfl

theorem convert_40 (s : TwoDState) :
    convert_resolution s 4 0
      = (s, some "Cannot convert resolution for level 4 to level 0") := rfl

theorem convert_41 (s : TwoDState) :
    convert_resolution s 4 1
      = (s, some "Cannot convert resolution for level 4 to level 1") := rfl

theorem convert_42 (s : TwoDState) :
    convert_resolution s 4 2
      = (s, some "Cannot convert resolution for level 4 to level 2") := rfl

/-- Whenever `_convert_resolution` raises, the state is unchanged. -/
theorem convert_error_frame (s : TwoDState) (o n : ℕ)
    (h : (convert_resolution s o n).2 ≠ none) :
    (convert_resolution s o n).1 = s := by
  unfold convert_resolution at h ⊢
  split_ifs at h ⊢
  · cases hd : s.d__data with
    | flat d => simp [hd]
    | missing => simp [hd] at h
    | pway d => simp [hd] at h
  · cases he : exceptPairs (fun k => types_to_processes s k) procKeys with
    | error e => simp [he]
    | ok st => simp [he] at h
  · cases he : exceptPairs (fun k => types_to_signals s k) sigKeys with
    | error e => simp [he]
    | ok st => simp [he] at h
  · cases he : signals_to_total s with
    | error e => simp [he]
    | ok m => simp [he] at h
  · cases he : processes_to_total s with
    | error e => simp [he]
    | ok m => simp [he] at h
  · rfl

theorem expsq_mul_le_one (a b : ℝ) :
    Real.exp (-a ^ 2) * Real.exp (-b ^ 2) ≤ 1 := by
  rw [← Real.exp_add, Real.exp_le_one_iff]
  nlinarith [sq_nonneg a, sq_nonneg b]

theorem expsq_mul_lt_one (a b : ℝ) (h : a ≠ 0 ∨ b ≠ 0) :
    Real.exp (-a ^ 2) * Real.exp (-b ^ 2) < 1 := by
  rw [← Real.exp_add, Real.exp_lt_one_iff]
  rcases h with h | h
  · nlinarith [sq_pos_of_ne_zero h, sq_nonneg b]
  · nlinarith [sq_pos_of_ne_zero h, sq_nonneg a]

/-- On the symmetric axis, the rephasing omega1 argument
`(-data[i] - 100)/w` vanishes exactly at the grid point i = 1 (the
sample -100). -/
theorem symArgNeg_zero_iff (w : ℚ) (hw : w ≠ 0) (i : ℕ) :
    ((-(symAxis.dataAt i) - 100) / w = 0) ↔ i = 1 := by
  constructor
  · intro h
    rcases div_eq_zero_iff.mp h with h0 | h0
    · have hq : (i : ℚ) = 1 := by
        simp [symAxis, FreqAxis.dataAt] at h0
        linarith
      exact_mod_cast hq
    · exact absurd h0 hw
  · rintro rfl
    norm_num [symAxis, FreqAxis.dataAt]

/-- On the symmetric axis, the direct argument `(data[i] - 100)/w`
vanishes exactly at the grid point i = 3 (the sample 100). -/
theorem symArgPos_zero_iff (w : ℚ) (hw : w ≠ 0) (i : ℕ) :
    ((symAxis.dataAt i - 100) / w = 0) ↔ i = 3 := by
  constructor
  · intro h
    rcases div_eq_zero_iff.mp h with h0 | h0
    · have hq : (i : ℚ) = 3 := by
        simp [symAxis, FreqAxis.dataAt] at h0
        linarith
      exact_mod_cast hq
    · exact absurd h0 hw
  · rintro rfl
    norm_num [symAxis, FreqAxis.dataAt]

/-- The synthesized rephasing Gaussian attains the value 1 at the grid
point (i3, i1) = (3, 1), i.e. at omega1 = -100, omega3 = 100. -/
theorem gaussArrR_peak (c : MockDefaults) : gaussArrR c 3 1 = 1 := by
  unfold gaussArrR gaussFactor
  norm_num [symAxis, FreqAxis.dataAt]

/-- The synthesized non-rephasing Gaussian attains the value 1 at the
grid point (i3, i1) = (3, 3), i.e. at omega1 = 100, omega3 = 100. -/
theorem gaussArrNR_peak (c : MockDefaults) : gaussArrNR c 3 3 = 1 := by
  unfold gaussArrNR gaussFactor
  norm_num [symAxis, FreqAxis.dataAt]

/-- Every entry of the rephasing Gaussian is at most 1. -/
theorem gaussArrR_le_one (c : MockDefaults) (i3 i1 : ℕ) :
    gaussArrR c i3 i1 ≤ 1 := by
  unfold gaussArrR gaussFactor
  rw [Rat.cast_one, one_mul]
  exact expsq_mul_le_one _ _

/-- Every entry of the non-rephasing Gaussian is at most 1. -/
theorem gaussArrNR_le_one (c : MockDefaults) (i3 i1 : ℕ) :
    gaussArrNR c i3 i1 ≤ 1 := by
  unfold gaussArrNR gaussFactor
  rw [Rat.cast_one, one_mul]
  exact expsq_mul_le_one _ _

/-- Away from the peak grid point, the rephasing Gaussian is strictly
below 1. -/
theorem gaussArrR_lt_one (c : MockDefaults)
    (hx : c.widthx ≠ 0) (hy : c.widthy ≠ 0)
    (i3 i1 : ℕ) (hne : ¬(i3 = 3 ∧ i1 = 1)) :
    gaussArrR c i3 i1 < 1 := by
  unfold gaussArrR gaussFactor
  rw [Rat.cast_one, one_mul]
  apply expsq_mul_lt_one
  rcases not_and_or.mp hne with h | h
  · right
    rw [Ne, Rat.cast_eq_zero, symArgPos_zero_iff c.widthy hy i3]
    exact h
  · left
    rw [Ne, Rat.cast_eq_zero, symArgNeg_zero_iff c.widthx hx i1]
    exact h

/-- Away from the peak grid point, the non-rephasing Gaussian is
strictly below 1. -/
theorem gaussArrNR_lt_one (c : MockDefaults)
    (hx : c.widthx ≠ 0) (hy : c.widthy ≠ 0)
    (i3 i1 : ℕ) (hne : ¬(i3 = 3 ∧ i1 = 3)) :
    gaussArrNR c i3 i1 < 1 := by
  unfold gaussArrNR gaussFactor
  rw [Rat.cast_one, one_mul]
  apply expsq_mul_lt_one
  rcases not_and_or.mp hne with h | h
  · right
    rw [Ne, Rat.cast_eq_zero, symArgPos_zero_iff c.widthy hy i3]
    exact h
  · left
    rw [Ne, Rat.cast_eq_zero, symArgPos_zero_iff c.widthx hx i1]
    exact h

/-!  ## The claims  -/

/-- C1: the claim says that reading "total" at pathways resolution, and
after lowering to types, processes and signals resolution, always gives
the same array.  Evaluated on a concrete populated spectrum: the
pathways, processes and signals readings all give the same total, but
the reading at types resolution raises a TypeError, because
`_types_to_total` calls `_types_to_processes(process)` without its
`obj` argument (twod2.py line 320). -/
theorem claim1_total_agreement_broken_at_types :
    d__data_get exPathState = Except.ok (some [[((3 : ℤ), (0 : ℤ))]])
    ∧ (set_resolution exPathState "types").2 = none
    ∧ d__data_get exTypesState =
        Except.error "TypeError: types_to_processes missing positional argument"
    ∧ (set_resolution exTypesState "processes").2 = none
    ∧ d__data_get exProcState = Except.ok (some [[((3 : ℤ), (0 : ℤ))]])
    ∧ (set_resolution exTypesState "signals").2 = none
    ∧ d__data_get exSigState = Except.ok (some [[((3 : ℤ), (0 : ℤ))]]) :=
  ⟨rfl, rfl, rfl, rfl, rfl, rfl, rfl⟩

/-- C3: the claim says the Lorentzian y dephasing equals
`pathway.dephs[3]` when that is nonnegative and the calculator default
otherwise, depending only on `dephs[3]`.  Evaluated on the code: for a
pathway with `dephs[3] = 5 >= 0` but sentinel widths, the code selects
the default 300 (it tests `widths[3]`, twod2.py line 1835); for a
pathway with `dephs[3] = -7 < 0` but `widths[3] = 2 >= 0`, the code
selects -7 instead of the default.  The x dephasing is selected from
`dephs[1]` as claimed. -/
theorem claim3_lorentzian_dephy_selection :
    (0 : ℚ) ≤ lorentzPathwayA.dephs 3
    ∧ resolve_dephy mockDefaults lorentzPathwayA = mockDefaults.dephy
    ∧ resolve_dephy mockDefaults lorentzPathwayA ≠ lorentzPathwayA.dephs 3
    ∧ lorentzPathwayB.dephs 3 < 0
    ∧ resolve_dephy mockDefaults lorentzPathwayB = lorentzPathwayB.dephs 3
    ∧ resolve_dephy mockDefaults lorentzPathwayB ≠ mockDefaults.dephy
    ∧ resolve_dephx mockDefaults lorentzPathwayA = mockDefaults.dephx := by
  refine ⟨by norm_num [lorentzPathwayA], rfl, by decide, by decide, rfl, by decide, rfl⟩

/-- C4: the claim says a pathways-resolution write of an array whose
shape disagrees with the axis lengths raises and stores nothing.
Evaluated on the code: a 1x1 array written against 2x2 axes under a
fresh tag raises nothing and is stored, because the shape check of the
source (twod2.py lines 497-499) is nested under the duplicate-tag
`raise` and is unreachable. -/
theorem claim4_shape_mismatch_not_checked :
    matShape badShaped ≠ (exShapeState.xlen, exShapeState.ylen)
    ∧ (d__data_set exShapeState badShaped).2 = none
    ∧ storedTag (d__data_set exShapeState badShaped).1 "R1g" "t2" = some badShaped :=
  ⟨by decide, rfl, rfl⟩

/-- C5: the claim says two `add_data` calls with arrays A then B for
the same dtype accumulate to A+B, with a lazily zero-initialized
accumulator.  Evaluated on the code: on a fresh spectrum (whose `dtype`
attribute is `None`) the first `add_data` call already raises, because
the guard at twod2.py line 634 tests `dtype is None` instead of
`self.dtype is None`, and the `else` branch then rejects every call
whose argument differs from the unset attribute. -/
theorem claim5_add_data_raises_on_fresh :
    (mkTwoDSpectrum 2 2).dtype = none
    ∧ add_data (mkTwoDSpectrum 2 2) [[((1 : ℤ), (0 : ℤ))]] (some "Tot")
        = (mkTwoDSpectrum 2 2, some "Incorrect data type in TwoDSpectrum")
    ∧ add_data (mkTwoDSpectrum 2 2) [[((1 : ℤ), (0 : ℤ))]] (some "Reph")
        = (mkTwoDSpectrum 2 2, some "Incorrect data type in TwoDSpectrum")
    ∧ add_data (mkTwoDSpectrum 2 2) [[((1 : ℤ), (0 : ℤ))]] (some "Nonr")
        = (mkTwoDSpectrum 2 2, some "Incorrect data type in TwoDSpectrum") :=
  ⟨rfl, rfl, rfl, rfl⟩

/-- C7: the claim says reading any recognized dtype from a store whose
`storage_initialized` flag is False returns a 1x1 zero array and never
raises.  Evaluated on the code: on a freshly constructed spectrum the
read raises AttributeError at `storage = getattr(self, storage_name)`
(twod2.py line 339), because `__init__` never creates the `_d__data`
attribute; the 1x1 sentinel branches further down are not reached. -/
theorem claim7_uninitialized_read_raises :
    (set_data_flag_single (mkTwoDSpectrum 5 5) "total").storage_initialized = false
    ∧ d__data_get (set_data_flag_single (mkTwoDSpectrum 5 5) "total")
        = Except.error "AttributeError: _d__data"
    ∧ d__data_get (set_data_flag_single (mkTwoDSpectrum 5 5) "R1g")
        = Except.error "AttributeError: _d__data"
    ∧ d__data_get (set_data_flag_single (mkTwoDSpectrum 5 5) "GSB")
        = Except.error "AttributeError: _d__data"
    ∧ d__data_get (set_data_flag_single (mkTwoDSpectrum 5 5) "REPH")
        = Except.error "AttributeError: _d__data" :=
  ⟨rfl, rfl, rfl, rfl, rfl⟩

/-- C2 counterexample: the claim quantifies over every storage state,
but a state reachable through the public interface falsifies the
always-succeeding signals(1)→off(0) transition.  Lower a fresh spectrum
pathways→types→signals (each step succeeding), then write once: the
write succeeds silently, resets the storage dictionary to the empty
dict and flips `storage_initialized`, keeping the resolution at
"signals" (level 1).  On the resulting state `set_resolution("off")`
raises KeyError inside `_signals_to_total` (twod2.py line 279) and the
resolution stays "signals". -/
theorem claim2_counterexample :
    (set_resolution (mkTwoDSpectrum 1 1) "types").2 = none
    ∧ (set_resolution (set_resolution (mkTwoDSpectrum 1 1) "types").1 "signals").2 = none
    ∧ (d__data_set exFreshSignals [[((1 : ℤ), (0 : ℤ))]]).2 = none
    ∧ exWrittenAfterLowering.storage_resolution = "signals"
    ∧ levelOf exWrittenAfterLowering.storage_resolution = 1
    ∧ levelOf "off" = 0
    ∧ (set_resolution exWrittenAfterLowering "off").2 = some "KeyError: REPH"
    ∧ (set_resolution exWrittenAfterLowering "off").1.storage_resolution = "signals"
    ∧ ¬ wf exWrittenAfterLowering :=
  ⟨rfl, rfl, rfl, rfl, rfl, rfl, rfl, rfl, by decide⟩

/-- C2, as amended: for every well-formed state — legal resolution
string, storage dictionary shape matching the resolution, every stored
array of the expected shape, and the signal/process keys present when
initialized at those resolutions — `set_resolution` succeeds exactly
along the transitions pathways(4)→types(3), types(3)→processes(2),
types(3)→signals(1), signals(1)→off(0), processes(2)→off(0) and
staying at the current level; every other request (a strictly higher
resolution, types→off, processes→signals, or an unknown name) raises.
Moreover the storage resolution level never increases in a call. -/
theorem claim2_set_resolution_transitions (s : TwoDState) (res : String) (hwf : wf s) :
    ((set_resolution s res).2 = none ↔
      (res ∈ resolutions ∧ allowedStep (levelOf s.storage_resolution) (levelOf res)))
    ∧ levelOf (set_resolution s res).1.storage_resolution
        ≤ levelOf s.storage_resolution := by
  obtain ⟨hmem, hpw, hfl, -, hsig, hproc⟩ := hwf
  have hs : s.storage_resolution = "off" ∨ s.storage_resolution = "signals"
      ∨ s.storage_resolution = "processes" ∨ s.storage_resolution = "types"
      ∨ s.storage_resolution = "pathways" := by
    simpa [resolutions] using hmem
  by_cases hres : res ∈ resolutions
  · have hr : res = "off" ∨ res = "signals" ∨ res = "processes"
        ∨ res = "types" ∨ res = "pathways" := by
      simpa [resolutions] using hres
    rcases hs with h | h | h | h | h
    · -- current resolution "off"
      rcases hr with rfl | rfl | rfl | rfl | rfl <;>
        simp [set_resolution, h, r2n_off, r2n_signals, r2n_processes, r2n_types,
          r2n_pathways, levelOf_off, levelOf_signals, levelOf_processes,
          levelOf_types, levelOf_pathways, allowedStep, resolutions]
    · -- current resolution "signals"
      have hk : s.storage_initialized = true → flatHasKeys s.d__data sigKeys :=
        fun hi => hsig h hi
      rcases hr with rfl | rfl | rfl | rfl | rfl <;>
        simp [set_resolution, h, r2n_off, r2n_signals, r2n_processes, r2n_types,
          r2n_pathways, convert_10 s hk, levelOf_off, levelOf_signals,
          levelOf_processes, levelOf_types, levelOf_pathways, allowedStep,
          resolutions]
    · -- current resolution "processes"
      have hk : s.storage_initialized = true → flatHasKeys s.d__data procKeys :=
        fun hi => hproc h hi
      rcases hr with rfl | rfl | rfl | rfl | rfl <;>
        simp [set_resolution, h, r2n_off, r2n_signals, r2n_processes, r2n_types,
          r2n_pathways, convert_20 s hk, convert_21 s, levelOf_off,
          levelOf_signals, levelOf_processes, levelOf_types, levelOf_pathways,
          allowedStep, resolutions]
    · -- current resolution "types"
      rcases hr with rfl | rfl | rfl | rfl | rfl <;>
        simp [set_resolution, h, r2n_off, r2n_signals, r2n_processes, r2n_types,
          r2n_pathways, convert_31 s, convert_32 s, convert_30 s,
          levelOf_off, levelOf_signals, levelOf_processes, levelOf_types,
          levelOf_pathways, allowedStep, resolutions]
    · -- current resolution "pathways"
      have hnf : s.d__data.isFlat = false := by
        cases hb : s.d__data.isFlat
        · rfl
        · exact absurd h (hfl hb)
      rcases hr with rfl | rfl | rfl | rfl | rfl <;>
        simp [set_resolution, h, r2n_off, r2n_signals, r2n_processes, r2n_types,
          r2n_pathways, convert_43 s hnf, convert_40 s, convert_41 s,
          convert_42 s, levelOf_off, levelOf_signals, levelOf_processes,
          levelOf_types, levelOf_pathways, allowedStep, resolutions]
  · have h1 : set_resolution s res = (s, some ("Unknown resolution: " ++ res)) := by
      unfold set_resolution
      simp [hres]
    rw [h1]
    simp [hres]

/-- C2 witness: lowering a fresh pathways-resolution spectrum to
"types" is a legal transition; the success iff and the monotonicity
hold at this concrete input. -/
theorem claim2_witness :
    wf (mkTwoDSpectrum 1 1)
    ∧ (((set_resolution (mkTwoDSpectrum 1 1) "types").2 = none ↔
        ("types" ∈ resolutions
          ∧ allowedStep (levelOf (mkTwoDSpectrum 1 1).storage_resolution)
              (levelOf "types")))
       ∧ levelOf (set_resolution (mkTwoDSpectrum 1 1) "types").1.storage_resolution
           ≤ levelOf (mkTwoDSpectrum 1 1).storage_resolution) :=
  ⟨by decide, claim2_set_resolution_transitions (mkTwoDSpectrum 1 1) "types" (by decide)⟩

/-- C6: at pathways resolution, writing under an already-populated
(type, tag) address raises the duplicate-tag exception and leaves the
state unchanged, while writing under a fresh tag succeeds, and a read
addressed with the flag [type, tag] returns exactly the stored
array. -/
theorem claim6_duplicate_and_fresh_tag (s : TwoDState) (dt tg : String) (v : Mat)
    (hres : s.storage_resolution = "pathways")
    (hdt : s.current_dtype = some dt)
    (hmem : dt ∈ ptypes)
    (htag : s.current_tag = some tg)
    (hini : s.storage_initialized = true) :
    ((storedTag s dt tg).isSome = true →
        d__data_set s v = (s, some "Tag already exists"))
    ∧ (storedTag s dt tg = none → s.d__data.isPway = true →
        (d__data_set s v).2 = none
        ∧ storedTag (d__data_set s v).1 dt tg = some v
        ∧ d__data_get (d__data_set s v).1 = Except.ok (some v)) := by
  obtain ⟨xl, yl, rp, nr, da, dty, sres, sini, cdt, ctg, dd⟩ := s
  dsimp only at hres hdt htag hini
  subst hres hdt htag hini
  constructor
  · intro hsome
    cases dd with
    | missing => simp [storedTag] at hsome
    | flat d => simp [storedTag] at hsome
    | pway d =>
      cases hp : alookup dt d with
      | none => simp [storedTag, hp] at hsome
      | some piece =>
        simp only [storedTag, hp] at hsome
        unfold d__data_set
        simp [hmem, hp, hsome]
  · intro hnone hpw
    cases dd with
    | missing => simp [Storage.isPway] at hpw
    | flat d => simp [Storage.isPway] at hpw
    | pway d =>
      cases hp : alookup dt d with
      | some piece =>
        simp only [storedTag, hp] at hnone
        have hset : d__data_set
            ⟨xl, yl, rp, nr, da, dty, "pathways", true, some dt, some tg,
              Storage.pway d⟩ v =
            (⟨xl, yl, rp, nr, da, dty, "pathways", true, some dt, some tg,
              Storage.pway (dictSet d dt (dictSet piece (some tg) v))⟩, none) := by
          unfold d__data_set
          simp [hmem, hp, hnone]
        rw [hset]
        refine ⟨rfl, ?_, ?_⟩
        · simp [storedTag, alookup_dictSet_self]
        · unfold d__data_get
          simp [hmem, pwayLookup, alookup_dictSet_self]
      | none =>
        have hset : d__data_set
            ⟨xl, yl, rp, nr, da, dty, "pathways", true, some dt, some tg,
              Storage.pway d⟩ v =
            (⟨xl, yl, rp, nr, da, dty, "pathways", true, some dt, some tg,
              Storage.pway (dictSet (dictSet d dt []) dt
                (dictSet [] (some tg) v))⟩, none) := by
          unfold d__data_set
          simp [hmem, hp, alookup]
        rw [hset]
        refine ⟨rfl, ?_, ?_⟩
        · simp [storedTag, alookup_dictSet_self]
        · unfold d__data_get
          simp [hmem, pwayLookup, alookup_dictSet_self]

/-- C6 witness: on the concrete spectrum `exShapeState` (whose write
address is the fresh tag "t2" of type "R1g"), the fresh-tag write
succeeds and reads back, and the duplicate branch is vacuous. -/
theorem claim6_witness :
    exShapeState.storage_resolution = "pathways"
    ∧ exShapeState.current_dtype = some "R1g"
    ∧ "R1g" ∈ ptypes
    ∧ exShapeState.current_tag = some "t2"
    ∧ exShapeState.storage_initialized = true
    ∧ (((storedTag exShapeState "R1g" "t2").isSome = true →
          d__data_set exShapeState badShaped
            = (exShapeState, some "Tag already exists"))
       ∧ (storedTag exShapeState "R1g" "t2" = none →
            exShapeState.d__data.isPway = true →
          (d__data_set exShapeState badShaped).2 = none
          ∧ storedTag (d__data_set exShapeState badShaped).1 "R1g" "t2" = some badShaped
          ∧ d__data_get (d__data_set exShapeState badShaped).1
              = Except.ok (some badShaped))) :=
  ⟨rfl, rfl, by decide, rfl, rfl,
   claim6_duplicate_and_fresh_tag exShapeState "R1g" "t2" badShaped
     rfl rfl (by decide) rfl rfl⟩

/-- C8: for the two descriptors with center frequencies (100, 100) and
prefactor 1 — one rephasing, one non-rephasing — synthesized with
Gaussian shape over the symmetric axis -200..200 (rwa = 0) and default
(positive) widths, the Reph array attains its maximum real value
exactly at the grid point (i3, i1) = (3, 1), i.e. omega1 = -100 and
omega3 = 100 (the omega1 sample is negated for rephasing pathways), and
the Nonr array attains its maximum exactly at (3, 3), i.e.
omega1 = 100, omega3 = 100. -/
theorem claim8_gaussian_peak_locations (c : MockDefaults)
    (hx : 0 < c.widthx) (hy : 0 < c.widthy) :
    calculate_pathway c symAxis symAxis pathR "Gaussian" false
        = Except.ok (some (gaussArrR c))
    ∧ calculate_pathway c symAxis symAxis pathNR "Gaussian" false
        = Except.ok (some (gaussArrNR c))
    ∧ symAxis.dataAt 1 = -100
    ∧ symAxis.dataAt 3 = 100
    ∧ (∀ i3 i1 : ℕ, gaussArrR c i3 i1 ≤ gaussArrR c 3 1)
    ∧ (∀ i3 i1 : ℕ, ¬(i3 = 3 ∧ i1 = 1) → gaussArrR c i3 i1 < gaussArrR c 3 1)
    ∧ (∀ i3 i1 : ℕ, gaussArrNR c i3 i1 ≤ gaussArrNR c 3 3)
    ∧ (∀ i3 i1 : ℕ, ¬(i3 = 3 ∧ i1 = 3) → gaussArrNR c i3 i1 < gaussArrNR c 3 3) := by
  refine ⟨rfl, rfl, by norm_num [symAxis, FreqAxis.dataAt],
    by norm_num [symAxis, FreqAxis.dataAt], ?_, ?_, ?_, ?_⟩
  · intro i3 i1
    rw [gaussArrR_peak c]
    exact gaussArrR_le_one c i3 i1
  · intro i3 i1 hne
    rw [gaussArrR_peak c]
    exact gaussArrR_lt_one c (ne_of_gt hx) (ne_of_gt hy) i3 i1 hne
  · intro i3 i1
    rw [gaussArrNR_peak c]
    exact gaussArrNR_le_one c i3 i1
  · intro i3 i1 hne
    rw [gaussArrNR_peak c]
    exact gaussArrNR_lt_one c (ne_of_gt hx) (ne_of_gt hy) i3 i1 hne

/-- C8 witness: the peak-location property at the concrete default
calculator parameters (width 300). -/
theorem claim8_witness :
    (0 : ℚ) < mockDefaults.widthx
    ∧ (0 : ℚ) < mockDefaults.widthy
    ∧ (calculate_pathway mockDefaults symAxis symAxis pathR "Gaussian" false
          = Except.ok (some (gaussArrR mockDefaults))
       ∧ calculate_pathway mockDefaults symAxis symAxis pathNR "Gaussian" false
          = Except.ok (some (gaussArrNR mockDefaults))
       ∧ symAxis.dataAt 1 = -100
       ∧ symAxis.dataAt 3 = 100
       ∧ (∀ i3 i1 : ℕ,
            gaussArrR mockDefaults i3 i1 ≤ gaussArrR mockDefaults 3 1)
       ∧ (∀ i3 i1 : ℕ, ¬(i3 = 3 ∧ i1 = 1) →
            gaussArrR mockDefaults i3 i1 < gaussArrR mockDefaults 3 1)
       ∧ (∀ i3 i1 : ℕ,
            gaussArrNR mockDefaults i3 i1 ≤ gaussArrNR mockDefaults 3 3)
       ∧ (∀ i3 i1 : ℕ, ¬(i3 = 3 ∧ i1 = 3) →
            gaussArrNR mockDefaults i3 i1 < gaussArrNR mockDefaults 3 3)) :=
  ⟨by decide, by decide,
   claim8_gaussian_peak_locations mockDefaults (by decide) (by decide)⟩

/-- C9: whenever `set_resolution` raises — unknown resolution name,
requested resolution higher than the current one, or unsupported
conversion — the spectrum is left unchanged: no field, in particular
neither `storage_resolution` nor the storage mapping, is modified. -/
theorem claim9_set_resolution_error_frame (s : TwoDState) (res : String)
    (h : (set_resolution s res).2 ≠ none) :
    (set_resolution s res).1 = s := by
  unfold set_resolution at h ⊢
  split_ifs at h ⊢
  · cases hro : resolution2number s.storage_resolution with
    | error e => simp [hro]
    | ok ro =>
      cases hrn : resolution2number res with
      | error e => simp [hro, hrn]
      | ok rn =>
        simp only [hro, hrn] at h ⊢
        split_ifs at h ⊢
        · rfl
        · rcases hc : convert_resolution s ro rn with ⟨s1, e⟩
          cases e with
          | none => simp [hc] at h
          | some msg =>
            have hframe := convert_error_frame s ro rn (by rw [hc]; simp)
            rw [hc] at hframe
            simp at hframe
            simp [hc, hframe]
        · simp at h
  · rfl

/-- C9 witness: requesting "signals" directly from the initial
"pathways" resolution raises and leaves the state unchanged. -/
theorem claim9_witness :
    (set_resolution (mkTwoDSpectrum 1 1) "signals").2 ≠ none
    ∧ (set_resolution (mkTwoDSpectrum 1 1) "signals").1 = mkTwoDSpectrum 1 1 :=
  ⟨by decide,
   claim9_set_resolution_error_frame (mkTwoDSpectrum 1 1) "signals" (by decide)⟩

end Twod2
